import Mathlib

/-!
Verification of the FocusFlow attention-session controller.

This file gives a shallow embedding of the client-side logic of the
`VideoAttentionTracker` component (and the related `EmotionsViewer`
component): the calibration-gated metrics handler, the sampling timer,
the playback seek guards and the video-load handlers.  Every definition
is translated directly from the TypeScript source; times are modelled
as rationals and JavaScript timers as an explicit table of active timer
ids threaded through the state.
-/

namespace FocusFlow

/-- Payload of an `emotions` WebSocket message (`EmotionsData` in the
source types); every field is optional. -/
structure EmotionsData where
  rel_relaxation : Option ℚ := none
  rel_attention : Option ℚ := none
  inst_relaxation : Option ℚ := none
  inst_attention : Option ℚ := none
  calibration_percent : Option ℚ := none
  is_both_sides_artifacted : Option Bool := none
  is_sequence_artifacted : Option Bool := none
  deriving DecidableEq, Repr

/-- One collected sample: `{ time: Math.round(currentTime), attention }`. -/
structure AttentionDataPoint where
  time : ℤ
  attention : ℚ
  deriving DecidableEq, Repr

/-- Playback states the component's handlers react to
(`YT.PlayerState.PLAYING / PAUSED / BUFFERING / ENDED`). -/
inductive PlayerState where
  | playing
  | paused
  | buffering
  | ended
  deriving DecidableEq, Repr

/-- The `videoMode` state: `'youtube' | 'file'`. -/
inductive VideoMode where
  | youtube
  | file
  deriving DecidableEq, Repr

/-- Constant `SEEK_TOLERANCE = 0.5` seconds (element-driven seek guard). -/
def SEEK_TOLERANCE : ℚ := 0.5

/-- Constant `YOUTUBE_SEEK_THRESHOLD = 1` second (polled YouTube seek guard). -/
def YOUTUBE_SEEK_THRESHOLD : ℚ := 1

/-- JavaScript `Math.round`: round half toward positive infinity. -/
def jsRound (q : ℚ) : ℤ := ⌊q + 1 / 2⌋

/-- Error message shown by `handleUrlSubmit` for an unparseable URL. -/
def urlErrorMsg : String := "Неверная ссылка на YouTube. Пожалуйста, введите корректную ссылку."

/-- Error message shown by `handleFileUpload` for a non-video file. -/
def fileErrorMsg : String := "Пожалуйста, выберите видео файл."

/-- Error message shown when starting the emotions stream fails. -/
def streamErrorMsg : String := "Ошибка при запуске отслеживания эмоций"

/-- Characters that terminate the captured video id in the URL pattern
`[^&\n?#]+`. -/
def stopChar (c : Char) : Bool :=
  c = '&' || c = '\n' || c = '?' || c = '#'

/-- The three URL prefixes of the extraction pattern
`youtube.com/watch?v= | youtu.be/ | youtube.com/embed/`. -/
def urlMarkers : List (List Char) :=
  ["youtube.com/watch?v=".toList, "youtu.be/".toList, "youtube.com/embed/".toList]

/-- Try to match one marker at the head of `cs` and capture a nonempty
id (`([^&\n?#]+)`) after it. -/
def tryMarker (m cs : List Char) : Option (List Char) :=
  if m.isPrefixOf cs then
    let captured := (cs.drop m.length).takeWhile (fun c => !stopChar c)
    if captured.isEmpty then none else some captured
  else none

/-- Try each marker, in the pattern's alternation order, at the head of
`cs`. -/
def tryMarkersAt (cs : List Char) : Option (List Char) :=
  match tryMarker "youtube.com/watch?v=".toList cs with
  | some r => some r
  | none =>
    match tryMarker "youtu.be/".toList cs with
    | some r => some r
    | none => tryMarker "youtube.com/embed/".toList cs

/-- Scan left to right for the first position at which the pattern
matches (leftmost-match regex semantics). -/
def matchFrom : List Char → Option (List Char)
  | [] => none
  | c :: rest =>
    match tryMarkersAt (c :: rest) with
    | some r => some r
    | none => matchFrom rest

/-- Function `extractVideoId`: extract a YouTube video id from a URL, or `null`. -/
def extractVideoId (url : String) : Option String :=
  (matchFrom url.toList).map (fun l => String.mk l)

/-- The MIME check `file.type.startsWith('video/')`, computed over the
character list. -/
def isVideoMime (fileType : String) : Bool :=
  "video/".toList.isPrefixOf fileType.toList

/-- The React state of `VideoAttentionTracker`, plus the refs it keeps
(`trackingIntervalRef`, `currentAttentionRef`, `lastYouTubeTimeRef`,
player/element availability) and an explicit table `activeTimers` of the
sampling-interval ids currently registered with the browser.
`isPlaying` records whether the last handled playback transition was
`PLAYING`. -/
structure TrackerState where
  videoId : Option String
  player : Bool
  isStreaming : Bool
  isCalibrated : Bool
  calibrationPercent : ℚ
  attentionData : List AttentionDataPoint
  showGraph : Bool
  currentAttention : Option ℚ
  errorMessage : Option String
  videoMode : VideoMode
  uploadedVideoUrl : Option String
  htmlVideo : Bool
  currentAttentionRef : Option ℚ
  lastYouTubeTime : ℚ
  trackingInterval : Option ℕ
  seekCheckActive : Bool
  isPlaying : Bool
  activeTimers : List ℕ
  nextTimerId : ℕ
  deriving DecidableEq, Repr

/-- The component's initial state (`useState` initialisers and refs). -/
def initState : TrackerState where
  videoId := none
  player := false
  isStreaming := false
  isCalibrated := false
  calibrationPercent := 0
  attentionData := []
  showGraph := false
  currentAttention := none
  errorMessage := none
  videoMode := .youtube
  uploadedVideoUrl := none
  htmlVideo := false
  currentAttentionRef := none
  lastYouTubeTime := 0
  trackingInterval := none
  seekCheckActive := false
  isPlaying := false
  activeTimers := []
  nextTimerId := 0

/-- The `emotions` message handler of `VideoAttentionTracker`: a
calibration event updates the percent and latches `isCalibrated` at
100; otherwise a reading event carrying `rel_attention` latches
`isCalibrated` and records the attention value (state and ref). -/
def emotionsHandler (s : TrackerState) (d : EmotionsData) : TrackerState :=
  match d.calibration_percent with
  | some p =>
    let s := { s with calibrationPercent := p }
    if 100 ≤ p then { s with isCalibrated := true } else s
  | none =>
    match d.rel_attention with
    | some a =>
      { s with isCalibrated := true, currentAttention := some a,
               currentAttentionRef := some a }
    | none => s

/-- Handler `startAttentionTracking`: clear any existing sampling interval,
then register a fresh one and store its id in `trackingIntervalRef`. -/
def startAttentionTracking (s : TrackerState) : TrackerState :=
  let cleared :=
    match s.trackingInterval with
    | some t => s.activeTimers.erase t
    | none => s.activeTimers
  { s with trackingInterval := some s.nextTimerId,
           activeTimers := s.nextTimerId :: cleared,
           nextTimerId := s.nextTimerId + 1 }

/-- Handler `stopAttentionTracking`: clear the sampling interval if one is
registered; otherwise do nothing. -/
def stopAttentionTracking (s : TrackerState) : TrackerState :=
  match s.trackingInterval with
  | some t =>
    { s with activeTimers := s.activeTimers.erase t, trackingInterval := none }
  | none => s

/-- Handler `onPlayerStateChange`: `PLAYING` starts tracking, `PAUSED` and
`BUFFERING` stop it, `ENDED` stops it, reveals the graph and cancels
the seek-check interval. -/
def onPlayerStateChange (s : TrackerState) (st : PlayerState) : TrackerState :=
  match st with
  | .playing =>
    let s := startAttentionTracking s
    { s with isPlaying := true }
  | .paused =>
    let s := stopAttentionTracking s
    { s with isPlaying := false }
  | .buffering =>
    let s := stopAttentionTracking s
    { s with isPlaying := false }
  | .ended =>
    let s := stopAttentionTracking s
    { s with isPlaying := false, showGraph := true, seekCheckActive := false }

/-- Handler `onPlayerReady`: start the emotions stream if not already streaming
(`streamOk` stands for the request's success), then install the
seek-check interval. -/
def onPlayerReady (s : TrackerState) (streamOk : Bool) : TrackerState :=
  let s :=
    if !s.isStreaming then
      if streamOk then { s with isStreaming := true }
      else { s with errorMessage := some streamErrorMsg }
    else s
  { s with seekCheckActive := true }

/-- The player-creation effect that runs when `videoId` is set: reset
`lastYouTubeTimeRef`, create the player, hide the graph and clear the
series buffer. -/
def playerCreatedStep (s : TrackerState) : TrackerState :=
  if s.videoId.isSome then
    { s with lastYouTubeTime := 0, player := true, showGraph := false,
             attentionData := [] }
  else s

/-- Handler `handleUrlSubmit`: clear the error, extract a video id; on success
set `videoId`, hide the graph and clear the series buffer; on failure
show the invalid-URL message. -/
def handleUrlSubmit (s : TrackerState) (url : String) : TrackerState :=
  let s := { s with errorMessage := none }
  match extractVideoId url with
  | some id =>
    { s with videoId := some id, showGraph := false, attentionData := [] }
  | none => { s with errorMessage := some urlErrorMsg }

/-- Handler `handleFileUpload`: reject a file whose MIME type is not `video/*`
with a message; otherwise switch to file mode, mount the element, hide
the graph, clear the series buffer and start the emotions stream if
needed (`streamOk` stands for the request's success). -/
def handleFileUpload (s : TrackerState) (fileType objectUrl : String)
    (streamOk : Bool) : TrackerState :=
  if !(isVideoMime fileType) then
    { s with errorMessage := some fileErrorMsg }
  else
    let s := { s with uploadedVideoUrl := some objectUrl, videoMode := .file,
                      videoId := none, showGraph := false, attentionData := [],
                      errorMessage := none, htmlVideo := true }
    if !s.isStreaming then
      if streamOk then { s with isStreaming := true }
      else { s with errorMessage := some streamErrorMsg }
    else s

/-- One tick of the sampling interval: fires only while the interval is
registered; skips if no attention reading has arrived or no player is
available, else appends `{ time: Math.round(currentTime), attention }`
to the series buffer. -/
def trackingTickStep (s : TrackerState) (currentTime : ℚ) : TrackerState :=
  if s.trackingInterval.isNone then s
  else
    match s.currentAttentionRef with
    | none => s
    | some a =>
      let haveSource :=
        match s.videoMode with
        | .youtube => s.player
        | .file => s.htmlVideo
      if haveSource then
        { s with attentionData :=
            s.attentionData ++ [{ time := jsRound currentTime, attention := a }] }
      else s

/-- HTML5 `play` event handler. -/
def handlePlay (s : TrackerState) : TrackerState :=
  let s := startAttentionTracking s
  { s with isPlaying := true }

/-- HTML5 `pause` event handler. -/
def handlePause (s : TrackerState) : TrackerState :=
  let s := stopAttentionTracking s
  { s with isPlaying := false }

/-- HTML5 `ended` event handler. -/
def handleEnded (s : TrackerState) : TrackerState :=
  let s := stopAttentionTracking s
  { s with isPlaying := false, showGraph := true }

/-- The events the component reacts to. -/
inductive TrackerEvent where
  | emotions (d : EmotionsData)
  | playerStateChange (st : PlayerState)
  | playerReady (streamOk : Bool)
  | playerCreated
  | urlSubmit (url : String)
  | fileUpload (fileType objectUrl : String) (streamOk : Bool)
  | trackingTick (currentTime : ℚ)
  | videoPlay
  | videoPause
  | videoEnded
  deriving DecidableEq, Repr

/-- Dispatch one event to the corresponding handler. -/
def step (s : TrackerState) : TrackerEvent → TrackerState
  | .emotions d => emotionsHandler s d
  | .playerStateChange st => onPlayerStateChange s st
  | .playerReady ok => onPlayerReady s ok
  | .playerCreated => playerCreatedStep s
  | .urlSubmit url => handleUrlSubmit s url
  | .fileUpload ft u ok => handleFileUpload s ft u ok
  | .trackingTick t => trackingTickStep s t
  | .videoPlay => handlePlay s
  | .videoPause => handlePause s
  | .videoEnded => handleEnded s

/-- Run an event trace from the component's initial state. -/
def run (es : List TrackerEvent) : TrackerState := es.foldl step initState

/-- Element-driven seek guard (`handleSeeking`): the playback position
after the handler, given the guard's `lastValidTime` and the reported
`currentTime`. -/
def handleSeeking (lastValidTime currentTime : ℚ) : ℚ :=
  if currentTime < lastValidTime - SEEK_TOLERANCE then lastValidTime
  else currentTime

/-- Element-driven `handleTimeUpdate`: the new `lastValidTime`, given
the previous one, the reported `currentTime` and whether the element is
seeking. -/
def handleTimeUpdate (lastValidTime currentTime : ℚ) (seeking : Bool) : ℚ :=
  if !seeking then currentTime else lastValidTime

/-- One round of the polled YouTube seek check: returns the new
`lastYouTubeTimeRef` and the `seekTo` command issued, if any. -/
def youtubeSeekCheckStep (lastTime currentTime : ℚ) : ℚ × Option ℚ :=
  if currentTime < lastTime - YOUTUBE_SEEK_THRESHOLD then (lastTime, some lastTime)
  else (max lastTime currentTime, none)

/-- An emotions payload completes calibration in the tracker: it
carries `calibration_percent ≥ 100`, or is a reading event (no percent)
carrying `rel_attention`. -/
def calTrigger (d : EmotionsData) : Bool :=
  match d.calibration_percent with
  | some p => decide (100 ≤ p)
  | none => d.rel_attention.isSome

/-- A trace event that completes calibration. -/
def isCalTriggerEvent : TrackerEvent → Bool
  | .emotions d => calTrigger d
  | _ => false

/-- The React state of the `EmotionsViewer` component. -/
structure ViewerState where
  isStreaming : Bool
  emotionsData : Option EmotionsData
  isCalibrating : Bool
  deriving DecidableEq, Repr

/-- The `emotions` message handler of `EmotionsViewer`: store the data;
a payload carrying `calibration_percent` (at any value) sets
`isCalibrating`, otherwise a payload carrying `rel_relaxation` or
`rel_attention` clears it. -/
def emotionsViewerHandler (s : ViewerState) (d : EmotionsData) : ViewerState :=
  let s := { s with emotionsData := some d }
  if d.calibration_percent.isSome then { s with isCalibrating := true }
  else if d.rel_relaxation.isSome || d.rel_attention.isSome then
    { s with isCalibrating := false }
  else s

/-- A calibrated variant of the initial state, for witnesses. -/
def calibInit : TrackerState := { initState with isCalibrated := true }

/-- A calibrated state with a video loaded, for witnesses. -/
def calibVideoInit : TrackerState :=
  { initState with videoId := some "abc", isCalibrated := true }

/-- An idle `EmotionsViewer` state, for witnesses. -/
def viewerIdle : ViewerState :=
  { isStreaming := true, emotionsData := none, isCalibrating := false }

/-- A calibrating `EmotionsViewer` state, for witnesses. -/
def viewerCalibrating : ViewerState :=
  { isStreaming := true, emotionsData := none, isCalibrating := true }

/-- A session history on video A: load, stream start, calibration
completed by a reading, playback, one sample collected. -/
def sessionApre : List TrackerEvent :=
  [TrackerEvent.urlSubmit "https://youtu.be/videoA1",
   TrackerEvent.playerCreated, TrackerEvent.playerReady true,
   TrackerEvent.emotions { rel_attention := some (7/10) },
   TrackerEvent.playerStateChange PlayerState.playing,
   TrackerEvent.trackingTick 5]

/-- Events after loading video B, before its playback starts. -/
def sessionBpost : List TrackerEvent := [TrackerEvent.playerCreated]

/-- A session that plays while still calibrating: a calibration event
at 50 percent, playback and a tick, but no calibration-completing
event. -/
def calibratingTrace : List TrackerEvent :=
  [TrackerEvent.urlSubmit "https://youtu.be/dQw4w9WgXcQ",
   TrackerEvent.playerCreated, TrackerEvent.playerReady true,
   TrackerEvent.emotions { calibration_percent := some 50 },
   TrackerEvent.playerStateChange PlayerState.playing,
   TrackerEvent.trackingTick 2]

/-! ### Helper lemmas -/

lemma emotionsHandler_isCalibrated (s : TrackerState) (d : EmotionsData) :
    (emotionsHandler s d).isCalibrated = (s.isCalibrated || calTrigger d) := by
  cases hp : d.calibration_percent with
  | some p =>
    by_cases h : (100 : ℚ) ≤ p <;> simp [emotionsHandler, calTrigger, hp, h]
  | none =>
    cases ha : d.rel_attention <;> simp [emotionsHandler, calTrigger, hp, ha]

lemma emotionsHandler_fields (s : TrackerState) (d : EmotionsData) :
    (emotionsHandler s d).activeTimers = s.activeTimers ∧
    (emotionsHandler s d).trackingInterval = s.trackingInterval ∧
    (emotionsHandler s d).isPlaying = s.isPlaying ∧
    (emotionsHandler s d).attentionData = s.attentionData ∧
    (emotionsHandler s d).errorMessage = s.errorMessage := by
  cases hp : d.calibration_percent with
  | some p =>
    by_cases h : (100 : ℚ) ≤ p <;> simp [emotionsHandler, hp, h]
  | none =>
    cases ha : d.rel_attention <;> simp [emotionsHandler, hp, ha]

lemma isCalibrated_foldl_emotions (ds : List EmotionsData) (s : TrackerState) :
    (ds.foldl emotionsHandler s).isCalibrated
      = (s.isCalibrated || ds.any calTrigger) := by
  induction ds generalizing s with
  | nil => simp
  | cons d ds ih =>
    simp [List.foldl_cons, ih, emotionsHandler_isCalibrated, Bool.or_assoc]

lemma startAttentionTracking_spec (s : TrackerState)
    (h : s.activeTimers = s.trackingInterval.toList) :
    (startAttentionTracking s).activeTimers = [s.nextTimerId] ∧
    (startAttentionTracking s).trackingInterval = some s.nextTimerId := by
  cases ht : s.trackingInterval with
  | none =>
    rw [ht] at h
    simp only [Option.toList] at h
    simp [startAttentionTracking, ht, h]
  | some t =>
    rw [ht] at h
    simp only [Option.toList] at h
    simp [startAttentionTracking, ht, h]

lemma stopAttentionTracking_spec (s : TrackerState)
    (h : s.activeTimers = s.trackingInterval.toList) :
    (stopAttentionTracking s).activeTimers = [] ∧
    (stopAttentionTracking s).trackingInterval = none := by
  cases ht : s.trackingInterval with
  | none =>
    rw [ht] at h
    simp only [Option.toList] at h
    simp [stopAttentionTracking, ht, h]
  | some t =>
    rw [ht] at h
    simp only [Option.toList] at h
    simp [stopAttentionTracking, ht, h]

lemma stopAttentionTracking_fields (s : TrackerState) :
    (stopAttentionTracking s).isCalibrated = s.isCalibrated ∧
    (stopAttentionTracking s).currentAttentionRef = s.currentAttentionRef ∧
    (stopAttentionTracking s).attentionData = s.attentionData ∧
    (stopAttentionTracking s).errorMessage = s.errorMessage := by
  cases ht : s.trackingInterval <;> simp [stopAttentionTracking, ht]

lemma onPlayerReady_fields (s : TrackerState) (ok : Bool) :
    (onPlayerReady s ok).activeTimers = s.activeTimers ∧
    (onPlayerReady s ok).trackingInterval = s.trackingInterval ∧
    (onPlayerReady s ok).isPlaying = s.isPlaying ∧
    (onPlayerReady s ok).currentAttentionRef = s.currentAttentionRef ∧
    (onPlayerReady s ok).isCalibrated = s.isCalibrated ∧
    (onPlayerReady s ok).attentionData = s.attentionData := by
  cases hs : s.isStreaming <;> cases ok <;> simp [onPlayerReady, hs]

lemma playerCreatedStep_fields (s : TrackerState) :
    (playerCreatedStep s).activeTimers = s.activeTimers ∧
    (playerCreatedStep s).trackingInterval = s.trackingInterval ∧
    (playerCreatedStep s).isPlaying = s.isPlaying ∧
    (playerCreatedStep s).currentAttentionRef = s.currentAttentionRef ∧
    (playerCreatedStep s).isCalibrated = s.isCalibrated ∧
    (playerCreatedStep s).errorMessage = s.errorMessage ∧
    ((playerCreatedStep s).attentionData = s.attentionData ∨
      (playerCreatedStep s).attentionData = []) := by
  unfold playerCreatedStep
  split <;> simp

lemma handleUrlSubmit_fields (s : TrackerState) (url : String) :
    (handleUrlSubmit s url).activeTimers = s.activeTimers ∧
    (handleUrlSubmit s url).trackingInterval = s.trackingInterval ∧
    (handleUrlSubmit s url).isPlaying = s.isPlaying ∧
    (handleUrlSubmit s url).currentAttentionRef = s.currentAttentionRef ∧
    (handleUrlSubmit s url).isCalibrated = s.isCalibrated ∧
    (handleUrlSubmit s url).uploadedVideoUrl = s.uploadedVideoUrl ∧
    ((handleUrlSubmit s url).attentionData = s.attentionData ∨
      (handleUrlSubmit s url).attentionData = []) := by
  unfold handleUrlSubmit
  cases hx : extractVideoId url <;> simp

lemma handleFileUpload_fields (s : TrackerState) (ft u : String) (ok : Bool) :
    (handleFileUpload s ft u ok).activeTimers = s.activeTimers ∧
    (handleFileUpload s ft u ok).trackingInterval = s.trackingInterval ∧
    (handleFileUpload s ft u ok).isPlaying = s.isPlaying ∧
    (handleFileUpload s ft u ok).currentAttentionRef = s.currentAttentionRef ∧
    (handleFileUpload s ft u ok).isCalibrated = s.isCalibrated ∧
    ((handleFileUpload s ft u ok).attentionData = s.attentionData ∨
      (handleFileUpload s ft u ok).attentionData = []) := by
  unfold handleFileUpload
  by_cases hf : isVideoMime ft = true <;> cases hs : s.isStreaming <;> cases ok <;>
    simp [hf, hs]

lemma trackingTickStep_fields (s : TrackerState) (t : ℚ) :
    (trackingTickStep s t).activeTimers = s.activeTimers ∧
    (trackingTickStep s t).trackingInterval = s.trackingInterval ∧
    (trackingTickStep s t).isPlaying = s.isPlaying ∧
    (trackingTickStep s t).currentAttentionRef = s.currentAttentionRef ∧
    (trackingTickStep s t).isCalibrated = s.isCalibrated ∧
    (trackingTickStep s t).errorMessage = s.errorMessage := by
  unfold trackingTickStep
  cases hn : s.trackingInterval <;>
    cases ha : s.currentAttentionRef <;>
      cases hm : s.videoMode <;>
        cases hp : s.player <;>
          cases hh : s.htmlVideo <;>
            simp [hn, ha, hm, hp, hh]

/-- The run-time invariant of the tracker: the browser timer table
holds exactly the registered sampling interval; a sampling interval is
registered exactly when the last handled playback transition was
`PLAYING`; and an attention reading has arrived only if calibration is
complete. -/
def TimerInv (s : TrackerState) : Prop :=
  s.activeTimers = s.trackingInterval.toList ∧
  s.trackingInterval.isSome = s.isPlaying ∧
  (s.currentAttentionRef.isSome = true → s.isCalibrated = true)

lemma timerInv_init : TimerInv initState := by
  refine ⟨rfl, rfl, ?_⟩
  intro h
  simp [initState] at h

lemma timerInv_of_fields (s s' : TrackerState) (h : TimerInv s)
    (f1 : s'.activeTimers = s.activeTimers)
    (f2 : s'.trackingInterval = s.trackingInterval)
    (f3 : s'.isPlaying = s.isPlaying)
    (f4 : s'.currentAttentionRef = s.currentAttentionRef)
    (f5 : s'.isCalibrated = s.isCalibrated) : TimerInv s' := by
  obtain ⟨h1, h2, h3⟩ := h
  exact ⟨by rw [f1, f2, h1], by rw [f2, f3, h2], by rw [f4, f5]; exact h3⟩

lemma timerInv_start (s : TrackerState) (h : TimerInv s) :
    TimerInv { startAttentionTracking s with isPlaying := true } := by
  obtain ⟨h1, h2, h3⟩ := h
  obtain ⟨g1, g2⟩ := startAttentionTracking_spec s h1
  refine ⟨?_, ?_, h3⟩
  · show (startAttentionTracking s).activeTimers
      = (startAttentionTracking s).trackingInterval.toList
    rw [g1, g2]
    rfl
  · show (startAttentionTracking s).trackingInterval.isSome = true
    rw [g2]
    rfl

lemma timerInv_stop (s : TrackerState) (h : TimerInv s) (s' : TrackerState)
    (e1 : s'.activeTimers = (stopAttentionTracking s).activeTimers)
    (e2 : s'.trackingInterval = (stopAttentionTracking s).trackingInterval)
    (e3 : s'.isPlaying = false)
    (e4 : s'.currentAttentionRef = s.currentAttentionRef)
    (e5 : s'.isCalibrated = s.isCalibrated) : TimerInv s' := by
  obtain ⟨h1, h2, h3⟩ := h
  obtain ⟨g1, g2⟩ := stopAttentionTracking_spec s h1
  refine ⟨?_, ?_, ?_⟩
  · rw [e1, e2, g1, g2]
    rfl
  · rw [e2, e3, g2]
    rfl
  · rw [e4, e5]
    exact h3

lemma timerInv_step (s : TrackerState) (e : TrackerEvent) (h : TimerInv s) :
    TimerInv (step s e) := by
  cases e with
  | emotions d =>
    obtain ⟨h1, h2, h3⟩ := h
    obtain ⟨f1, f2, f3, _, _⟩ := emotionsHandler_fields s d
    refine ⟨?_, ?_, ?_⟩
    · show (emotionsHandler s d).activeTimers
        = (emotionsHandler s d).trackingInterval.toList
      rw [f1, f2, h1]
    · show (emotionsHandler s d).trackingInterval.isSome
        = (emotionsHandler s d).isPlaying
      rw [f2, f3]
      exact h2
    · show (emotionsHandler s d).currentAttentionRef.isSome = true →
        (emotionsHandler s d).isCalibrated = true
      intro hsome
      rw [emotionsHandler_isCalibrated]
      cases hp : d.calibration_percent with
      | some p =>
        have href : (emotionsHandler s d).currentAttentionRef
            = s.currentAttentionRef := by
          by_cases hq : (100 : ℚ) ≤ p <;> simp [emotionsHandler, hp, hq]
        rw [href] at hsome
        rw [h3 hsome]
        rfl
      | none =>
        cases ha : d.rel_attention with
        | none =>
          have href : (emotionsHandler s d).currentAttentionRef
              = s.currentAttentionRef := by
            simp [emotionsHandler, hp, ha]
          rw [href] at hsome
          rw [h3 hsome]
          rfl
        | some a => simp [calTrigger, hp, ha]
  | playerStateChange st =>
    cases st with
    | playing => exact timerInv_start s h
    | paused =>
      obtain ⟨f1, f2, _, _⟩ := stopAttentionTracking_fields s
      exact timerInv_stop s h _ rfl rfl rfl f2 f1
    | buffering =>
      obtain ⟨f1, f2, _, _⟩ := stopAttentionTracking_fields s
      exact timerInv_stop s h _ rfl rfl rfl f2 f1
    | ended =>
      obtain ⟨f1, f2, _, _⟩ := stopAttentionTracking_fields s
      exact timerInv_stop s h _ rfl rfl rfl f2 f1
  | playerReady ok =>
    obtain ⟨f1, f2, f3, f4, f5, _⟩ := onPlayerReady_fields s ok
    exact timerInv_of_fields s _ h f1 f2 f3 f4 f5
  | playerCreated =>
    obtain ⟨f1, f2, f3, f4, f5, _, _⟩ := playerCreatedStep_fields s
    exact timerInv_of_fields s _ h f1 f2 f3 f4 f5
  | urlSubmit url =>
    obtain ⟨f1, f2, f3, f4, f5, _, _⟩ := handleUrlSubmit_fields s url
    exact timerInv_of_fields s _ h f1 f2 f3 f4 f5
  | fileUpload ft u ok =>
    obtain ⟨f1, f2, f3, f4, f5, _⟩ := handleFileUpload_fields s ft u ok
    exact timerInv_of_fields s _ h f1 f2 f3 f4 f5
  | trackingTick t =>
    obtain ⟨f1, f2, f3, f4, f5, _⟩ := trackingTickStep_fields s t
    exact timerInv_of_fields s _ h f1 f2 f3 f4 f5
  | videoPlay => exact timerInv_start s h
  | videoPause =>
    obtain ⟨f1, f2, _, _⟩ := stopAttentionTracking_fields s
    exact timerInv_stop s h _ rfl rfl rfl f2 f1
  | videoEnded =>
    obtain ⟨f1, f2, _, _⟩ := stopAttentionTracking_fields s
    exact timerInv_stop s h _ rfl rfl rfl f2 f1

lemma timerInv_foldl (es : List TrackerEvent) (s : TrackerState)
    (h : TimerInv s) : TimerInv (es.foldl step s) := by
  induction es generalizing s with
  | nil => exact h
  | cons e es ih => exact ih _ (timerInv_step s e h)

lemma timerInv_run (es : List TrackerEvent) : TimerInv (run es) :=
  timerInv_foldl es initState timerInv_init

lemma step_attentionData_no_append (s : TrackerState) (e : TrackerEvent)
    (hInv : TimerInv s) (h : s.isCalibrated = false ∨ s.isPlaying = false) :
    (step s e).attentionData = s.attentionData ∨ (step s e).attentionData = [] := by
  cases e with
  | emotions d => exact Or.inl (emotionsHandler_fields s d).2.2.2.1
  | playerStateChange st =>
    cases st with
    | playing => exact Or.inl rfl
    | paused => exact Or.inl (stopAttentionTracking_fields s).2.2.1
    | buffering => exact Or.inl (stopAttentionTracking_fields s).2.2.1
    | ended => exact Or.inl (stopAttentionTracking_fields s).2.2.1
  | playerReady ok => exact Or.inl (onPlayerReady_fields s ok).2.2.2.2.2
  | playerCreated => exact (playerCreatedStep_fields s).2.2.2.2.2.2
  | urlSubmit url => exact (handleUrlSubmit_fields s url).2.2.2.2.2.2
  | fileUpload ft u ok => exact (handleFileUpload_fields s ft u ok).2.2.2.2.2
  | trackingTick t =>
    obtain ⟨h1, h2, h3⟩ := hInv
    cases hn : s.trackingInterval with
    | none => exact Or.inl (by simp [step, trackingTickStep, hn])
    | some i =>
      have hP : s.isPlaying = true := by rw [← h2, hn]; rfl
      have hC : s.isCalibrated = false := by
        rcases h with h | h
        · exact h
        · rw [hP] at h; exact absurd h (by simp)
      cases ha : s.currentAttentionRef with
      | none => exact Or.inl (by simp [step, trackingTickStep, hn, ha])
      | some a =>
        have hcal := h3 (by rw [ha]; rfl)
        rw [hcal] at hC
        exact absurd hC (by simp)
  | videoPlay => exact Or.inl rfl
  | videoPause => exact Or.inl (stopAttentionTracking_fields s).2.2.1
  | videoEnded => exact Or.inl (stopAttentionTracking_fields s).2.2.1

lemma run_append_singleton (es : List TrackerEvent) (e : TrackerEvent) :
    run (es ++ [e]) = step (run es) e := by
  simp [run, List.foldl_append]

lemma step_no_trigger (s : TrackerState) (e : TrackerEvent)
    (h1 : s.currentAttentionRef = none) (h2 : s.attentionData = [])
    (he : isCalTriggerEvent e = false) :
    (step s e).currentAttentionRef = none ∧ (step s e).attentionData = [] ∧
    (step s e).isCalibrated = s.isCalibrated := by
  cases e with
  | emotions d =>
    refine ⟨?_, ?_, ?_⟩
    · show (emotionsHandler s d).currentAttentionRef = none
      cases hp : d.calibration_percent with
      | some p =>
        by_cases hq : (100 : ℚ) ≤ p <;> simp [emotionsHandler, hp, hq, h1]
      | none =>
        cases ha : d.rel_attention with
        | some a => simp [isCalTriggerEvent, calTrigger, hp, ha] at he
        | none => simp [emotionsHandler, hp, ha, h1]
    · exact ((emotionsHandler_fields s d).2.2.2.1).trans h2
    · show (emotionsHandler s d).isCalibrated = s.isCalibrated
      rw [emotionsHandler_isCalibrated]
      simp only [isCalTriggerEvent] at he
      rw [he]
      simp
  | playerStateChange st =>
    cases st with
    | playing => exact ⟨h1, h2, rfl⟩
    | paused =>
      obtain ⟨f1, f2, f3, _⟩ := stopAttentionTracking_fields s
      exact ⟨f2.trans h1, f3.trans h2, f1⟩
    | buffering =>
      obtain ⟨f1, f2, f3, _⟩ := stopAttentionTracking_fields s
      exact ⟨f2.trans h1, f3.trans h2, f1⟩
    | ended =>
      obtain ⟨f1, f2, f3, _⟩ := stopAttentionTracking_fields s
      exact ⟨f2.trans h1, f3.trans h2, f1⟩
  | playerReady ok =>
    obtain ⟨_, _, _, f4, f5, f6⟩ := onPlayerReady_fields s ok
    exact ⟨f4.trans h1, f6.trans h2, f5⟩
  | playerCreated =>
    obtain ⟨_, _, _, f4, f5, _, f7⟩ := playerCreatedStep_fields s
    refine ⟨f4.trans h1, ?_, f5⟩
    rcases f7 with hd | hd
    · exact hd.trans h2
    · exact hd
  | urlSubmit url =>
    obtain ⟨_, _, _, f4, f5, _, f7⟩ := handleUrlSubmit_fields s url
    refine ⟨f4.trans h1, ?_, f5⟩
    rcases f7 with hd | hd
    · exact hd.trans h2
    · exact hd
  | fileUpload ft u ok =>
    obtain ⟨_, _, _, f4, f5, f6⟩ := handleFileUpload_fields s ft u ok
    refine ⟨f4.trans h1, ?_, f5⟩
    rcases f6 with hd | hd
    · exact hd.trans h2
    · exact hd
  | trackingTick t =>
    have hid : trackingTickStep s t = s := by
      cases hn : s.trackingInterval <;> simp [trackingTickStep, hn, h1]
    refine ⟨?_, ?_, ?_⟩
    · show (trackingTickStep s t).currentAttentionRef = none
      rw [hid]
      exact h1
    · show (trackingTickStep s t).attentionData = []
      rw [hid]
      exact h2
    · show (trackingTickStep s t).isCalibrated = s.isCalibrated
      rw [hid]
  | videoPlay => exact ⟨h1, h2, rfl⟩
  | videoPause =>
    obtain ⟨f1, f2, f3, _⟩ := stopAttentionTracking_fields s
    exact ⟨f2.trans h1, f3.trans h2, f1⟩
  | videoEnded =>
    obtain ⟨f1, f2, f3, _⟩ := stopAttentionTracking_fields s
    exact ⟨f2.trans h1, f3.trans h2, f1⟩

lemma run_no_trigger (es : List TrackerEvent)
    (h : ∀ e ∈ es, isCalTriggerEvent e = false) :
    (run es).currentAttentionRef = none ∧ (run es).attentionData = [] ∧
    (run es).isCalibrated = false := by
  have main : ∀ (l : List TrackerEvent) (s : TrackerState),
      s.currentAttentionRef = none → s.attentionData = [] →
      (∀ e ∈ l, isCalTriggerEvent e = false) →
      (l.foldl step s).currentAttentionRef = none ∧
      (l.foldl step s).attentionData = [] ∧
      (l.foldl step s).isCalibrated = s.isCalibrated := by
    intro l
    induction l with
    | nil =>
      intro s hh1 hh2 _
      exact ⟨hh1, hh2, rfl⟩
    | cons e l ih =>
      intro s hh1 hh2 hall
      obtain ⟨p1, p2, p3⟩ :=
        step_no_trigger s e hh1 hh2 (hall e (List.mem_cons_self e l))
      obtain ⟨q1, q2, q3⟩ :=
        ih (step s e) p1 p2 (fun x hx => hall x (List.mem_cons_of_mem e hx))
      exact ⟨q1, q2, q3.trans p3⟩
  obtain ⟨a, b, c⟩ := main es initState rfl rfl h
  exact ⟨a, b, c⟩

lemma not_playing_empty_preserved (post : List TrackerEvent) :
    ∀ s : TrackerState, TimerInv s → s.isPlaying = false →
    s.attentionData = [] →
    (∀ e ∈ post, e ≠ TrackerEvent.playerStateChange PlayerState.playing ∧
      e ≠ TrackerEvent.videoPlay) →
    (post.foldl step s).attentionData = [] := by
  induction post with
  | nil =>
    intro s _ _ h _
    exact h
  | cons e l ih =>
    intro s hInv hP hD hall
    obtain ⟨hne1, hne2⟩ := hall e (List.mem_cons_self e l)
    have hP2 : (step s e).isPlaying = false := by
      cases e with
      | emotions d => exact ((emotionsHandler_fields s d).2.2.1).trans hP
      | playerStateChange st =>
        cases st with
        | playing => exact absurd rfl hne1
        | paused => rfl
        | buffering => rfl
        | ended => rfl
      | playerReady ok => exact ((onPlayerReady_fields s ok).2.2.1).trans hP
      | playerCreated => exact ((playerCreatedStep_fields s).2.2.1).trans hP
      | urlSubmit url => exact ((handleUrlSubmit_fields s url).2.2.1).trans hP
      | fileUpload ft u ok =>
        exact ((handleFileUpload_fields s ft u ok).2.2.1).trans hP
      | trackingTick t => exact ((trackingTickStep_fields s t).2.2.1).trans hP
      | videoPlay => exact absurd rfl hne2
      | videoPause => rfl
      | videoEnded => rfl
    have hD2 : (step s e).attentionData = [] := by
      rcases step_attentionData_no_append s e hInv (Or.inr hP) with hd | hd
      · exact hd.trans hD
      · exact hd
    exact ih (step s e) (timerInv_step s e hInv) hP2 hD2
      (fun x hx => hall x (List.mem_cons_of_mem e hx))

/-! ### Claim theorems -/

/-- C1 (counterexample): the claim "the sampling timer is running iff
the session is Tracking (calibration complete AND playing)" is false:
after loading a video and receiving `PLAYING` with no calibration
events at all, the sampling interval is registered while the session is
still uncalibrated. -/
theorem sampling_timer_iff_tracking_counterexample :
    (run [TrackerEvent.urlSubmit "https://youtu.be/dQw4w9WgXcQ",
          TrackerEvent.playerCreated,
          TrackerEvent.playerStateChange PlayerState.playing]).trackingInterval.isSome
        = true ∧
    (run [TrackerEvent.urlSubmit "https://youtu.be/dQw4w9WgXcQ",
          TrackerEvent.playerCreated,
          TrackerEvent.playerStateChange PlayerState.playing]).isCalibrated
        = false := by
  decide

/-- C1 (amended): over every event trace, the sampling timer is
registered if and only if the last handled playback transition was
`PLAYING` (whether or not calibration is complete); and while the
session is uncalibrated or not playing, no event appends a sample to
the series buffer (the buffer is either left unchanged or cleared). -/
theorem sampling_timer_amended :
    (∀ es : List TrackerEvent,
      (run es).trackingInterval.isSome = (run es).isPlaying) ∧
    (∀ (es : List TrackerEvent) (e : TrackerEvent),
      (run es).isCalibrated = false ∨ (run es).isPlaying = false →
      (run (es ++ [e])).attentionData = (run es).attentionData ∨
        (run (es ++ [e])).attentionData = []) := by
  constructor
  · intro es
    exact (timerInv_run es).2.1
  · intro es e h
    rw [run_append_singleton]
    exact step_attentionData_no_append (run es) e (timerInv_run es) h

/-- C1 (witness for the amended theorem's hypothesis): a playing but
uncalibrated session receives a tick and the buffer stays unchanged. -/
theorem sampling_timer_amended_witness :
    ((run [TrackerEvent.playerStateChange PlayerState.playing]).isCalibrated = false ∨
      (run [TrackerEvent.playerStateChange PlayerState.playing]).isPlaying = false) ∧
    ((run ([TrackerEvent.playerStateChange PlayerState.playing] ++
          [TrackerEvent.trackingTick 3])).attentionData
        = (run [TrackerEvent.playerStateChange PlayerState.playing]).attentionData ∨
      (run ([TrackerEvent.playerStateChange PlayerState.playing] ++
          [TrackerEvent.trackingTick 3])).attentionData = []) :=
  ⟨Or.inl (by decide),
   sampling_timer_amended.2 [TrackerEvent.playerStateChange PlayerState.playing]
     (TrackerEvent.trackingTick 3) (Or.inl (by decide))⟩

/-- C2: over every sequence of incoming emotions payloads, after any
prefix the tracker's `isCalibrated` is true exactly when the prefix
contains a payload carrying `calibration_percent ≥ 100` or a reading
payload (no percent) carrying `rel_attention`; hence it becomes true at
the first such payload and never reverts. -/
theorem isCalibrated_first_trigger (ds : List EmotionsData) (k : ℕ) :
    ((ds.take k).foldl emotionsHandler initState).isCalibrated
      = (ds.take k).any calTrigger := by
  rw [isCalibrated_foldl_emotions]
  simp [initState]

/-- C3 (counterexample): on the element path, a time-update reported
while not seeking assigns `currentTime` directly rather than
`max(lastValidTime, t)`: from `lastValidTime = 10`, a non-seeking
update at `9.6` lowers `lastValidTime` to `9.6 < 10 = max 10 9.6`. -/
theorem element_time_update_not_max :
    handleTimeUpdate 10 9.6 false = 9.6 ∧ max (10 : ℚ) 9.6 = 10 ∧
      (9.6 : ℚ) < 10 := by
  refine ⟨rfl, ?_, by norm_num⟩
  rw [max_eq_left (by norm_num)]

/-- C3 (amended): on the local-file element path `handleTimeUpdate`
assigns the reported time directly whenever the source is not seeking
(and leaves `lastValidTime` unchanged while seeking), so it is not
necessarily non-decreasing; on the polled YouTube path the check keeps
`lastYouTubeTime` non-decreasing, setting it to `max(lastValidTime, t)`
whenever no backward seek beyond the threshold is detected. -/
theorem time_update_amended :
    (∀ lv t : ℚ, handleTimeUpdate lv t false = t) ∧
    (∀ lv t : ℚ, handleTimeUpdate lv t true = lv) ∧
    (∀ lv t : ℚ, lv ≤ (youtubeSeekCheckStep lv t).1) ∧
    (∀ lv t : ℚ, ¬ t < lv - YOUTUBE_SEEK_THRESHOLD →
      (youtubeSeekCheckStep lv t).1 = max lv t) := by
  refine ⟨fun lv t => rfl, fun lv t => rfl, ?_, ?_⟩
  · intro lv t
    unfold youtubeSeekCheckStep
    split
    · exact le_refl lv
    · exact le_max_left lv t
  · intro lv t h
    simp [youtubeSeekCheckStep, h]

/-- C3 (witness for the amended theorem's hypothesis). -/
theorem time_update_amended_witness :
    handleTimeUpdate 10 9.6 false = 9.6 ∧
    (10 : ℚ) ≤ (youtubeSeekCheckStep 10 10.5).1 ∧
    (youtubeSeekCheckStep 10 10.5).1 = max 10 10.5 :=
  ⟨time_update_amended.1 10 9.6, time_update_amended.2.2.1 10 10.5,
   time_update_amended.2.2.2 10 10.5 (by norm_num [YOUTUBE_SEEK_THRESHOLD])⟩

/-- C4: with `lastValidTime = 10` and tolerance `0.5`, a seek event
reporting `9.0` is forced back to `10`, while one reporting `9.6` is
left unchanged. -/
theorem seek_guard_examples :
    handleSeeking 10 9 = 10 ∧ handleSeeking 10 9.6 = 9.6 := by
  constructor
  · unfold handleSeeking
    rw [if_pos (by norm_num [SEEK_TOLERANCE])]
  · unfold handleSeeking
    rw [if_neg (by norm_num [SEEK_TOLERANCE])]

/-- C7: at most one sampling timer ever exists: along every event
trace the browser timer table holds exactly the registered interval;
`startAttentionTracking` always leaves exactly one active interval (it
first clears any previous one); and `stopAttentionTracking` with no
registered interval is a no-op. -/
theorem sampling_timer_unique :
    (∀ es : List TrackerEvent,
      (run es).activeTimers = ((run es).trackingInterval).toList) ∧
    (∀ s : TrackerState, s.activeTimers = s.trackingInterval.toList →
      (startAttentionTracking s).activeTimers = [s.nextTimerId] ∧
      (startAttentionTracking s).trackingInterval = some s.nextTimerId) ∧
    (∀ s : TrackerState, s.trackingInterval = none →
      stopAttentionTracking s = s) := by
  refine ⟨fun es => (timerInv_run es).1, startAttentionTracking_spec, ?_⟩
  intro s h
  simp [stopAttentionTracking, h]

/-- C7 (witness): two consecutive starts leave one timer; stopping the
idle initial state changes nothing. -/
theorem sampling_timer_unique_witness :
    (run [TrackerEvent.videoPlay, TrackerEvent.videoPlay]).activeTimers
        = ((run [TrackerEvent.videoPlay, TrackerEvent.videoPlay]).trackingInterval).toList ∧
    (startAttentionTracking initState).activeTimers = [initState.nextTimerId] ∧
    stopAttentionTracking initState = initState :=
  ⟨sampling_timer_unique.1 [TrackerEvent.videoPlay, TrackerEvent.videoPlay],
   (sampling_timer_unique.2.1 initState (by decide)).1,
   sampling_timer_unique.2.2 initState (by decide)⟩

/-- C8: an unparseable URL or a non-video file is rejected with a
user-visible message, and `videoId`, `uploadedVideoUrl`, the series
buffer and the graph flag are all left unchanged. -/
theorem invalid_input_rejected :
    (∀ (s : TrackerState) (url : String), extractVideoId url = none →
      (handleUrlSubmit s url).videoId = s.videoId ∧
      (handleUrlSubmit s url).uploadedVideoUrl = s.uploadedVideoUrl ∧
      (handleUrlSubmit s url).attentionData = s.attentionData ∧
      (handleUrlSubmit s url).showGraph = s.showGraph ∧
      (handleUrlSubmit s url).errorMessage = some urlErrorMsg) ∧
    (∀ (s : TrackerState) (ft u : String) (ok : Bool),
      isVideoMime ft = false →
      (handleFileUpload s ft u ok).videoId = s.videoId ∧
      (handleFileUpload s ft u ok).uploadedVideoUrl = s.uploadedVideoUrl ∧
      (handleFileUpload s ft u ok).attentionData = s.attentionData ∧
      (handleFileUpload s ft u ok).showGraph = s.showGraph ∧
      (handleFileUpload s ft u ok).errorMessage = some fileErrorMsg) := by
  constructor
  · intro s url h
    simp [handleUrlSubmit, h]
  · intro s ft u ok h
    simp [handleFileUpload, h]

/-- C8 (witness): a nonsense URL and an image file are both rejected
with the corresponding message. -/
theorem invalid_input_rejected_witness :
    (handleUrlSubmit initState "not a url").errorMessage = some urlErrorMsg ∧
    (handleFileUpload initState "image/png" "blob:demo" true).errorMessage
      = some fileErrorMsg :=
  ⟨(invalid_input_rejected.1 initState "not a url" (by decide)).2.2.2.2,
   (invalid_input_rejected.2 initState "image/png" "blob:demo" true
      (by decide)).2.2.2.2⟩

/-- C9: no event ever resets `isCalibrated`, and the load handlers
(valid URL submit, player creation, valid file upload) clear the series
buffer and the graph flag while leaving `isCalibrated` unchanged. -/
theorem calibration_persists :
    (∀ (s : TrackerState) (e : TrackerEvent), s.isCalibrated = true →
      (step s e).isCalibrated = true) ∧
    (∀ (s : TrackerState) (url : String), (extractVideoId url).isSome = true →
      (handleUrlSubmit s url).isCalibrated = s.isCalibrated ∧
      (handleUrlSubmit s url).attentionData = [] ∧
      (handleUrlSubmit s url).showGraph = false) ∧
    (∀ s : TrackerState, s.videoId.isSome = true →
      (playerCreatedStep s).isCalibrated = s.isCalibrated ∧
      (playerCreatedStep s).attentionData = [] ∧
      (playerCreatedStep s).showGraph = false) ∧
    (∀ (s : TrackerState) (ft u : String) (ok : Bool),
      isVideoMime ft = true →
      (handleFileUpload s ft u ok).isCalibrated = s.isCalibrated ∧
      (handleFileUpload s ft u ok).attentionData = [] ∧
      (handleFileUpload s ft u ok).showGraph = false) := by
  refine ⟨?_, ?_, ?_, ?_⟩
  · intro s e h
    cases e with
    | emotions d =>
      show (emotionsHandler s d).isCalibrated = true
      rw [emotionsHandler_isCalibrated, h]
      rfl
    | playerStateChange st =>
      cases st with
      | playing => exact h
      | paused => rw [show (step s (.playerStateChange .paused)).isCalibrated
          = (stopAttentionTracking s).isCalibrated from rfl,
          (stopAttentionTracking_fields s).1]; exact h
      | buffering => rw [show (step s (.playerStateChange .buffering)).isCalibrated
          = (stopAttentionTracking s).isCalibrated from rfl,
          (stopAttentionTracking_fields s).1]; exact h
      | ended => rw [show (step s (.playerStateChange .ended)).isCalibrated
          = (stopAttentionTracking s).isCalibrated from rfl,
          (stopAttentionTracking_fields s).1]; exact h
    | playerReady ok => rw [show (step s (.playerReady ok)).isCalibrated
        = (onPlayerReady s ok).isCalibrated from rfl,
        (onPlayerReady_fields s ok).2.2.2.2.1]; exact h
    | playerCreated => rw [show (step s .playerCreated).isCalibrated
        = (playerCreatedStep s).isCalibrated from rfl,
        (playerCreatedStep_fields s).2.2.2.2.1]; exact h
    | urlSubmit url => rw [show (step s (.urlSubmit url)).isCalibrated
        = (handleUrlSubmit s url).isCalibrated from rfl,
        (handleUrlSubmit_fields s url).2.2.2.2.1]; exact h
    | fileUpload ft u ok => rw [show (step s (.fileUpload ft u ok)).isCalibrated
        = (handleFileUpload s ft u ok).isCalibrated from rfl,
        (handleFileUpload_fields s ft u ok).2.2.2.2.1]; exact h
    | trackingTick t => rw [show (step s (.trackingTick t)).isCalibrated
        = (trackingTickStep s t).isCalibrated from rfl,
        (trackingTickStep_fields s t).2.2.2.2.1]; exact h
    | videoPlay => exact h
    | videoPause => rw [show (step s .videoPause).isCalibrated
        = (stopAttentionTracking s).isCalibrated from rfl,
        (stopAttentionTracking_fields s).1]; exact h
    | videoEnded => rw [show (step s .videoEnded).isCalibrated
        = (stopAttentionTracking s).isCalibrated from rfl,
        (stopAttentionTracking_fields s).1]; exact h
  · intro s url h
    cases hx : extractVideoId url with
    | none => rw [hx] at h; exact absurd h (by simp)
    | some id => simp [handleUrlSubmit, hx]
  · intro s h
    simp [playerCreatedStep, h]
  · intro s ft u ok h
    cases hs : s.isStreaming <;> cases ok <;> simp [handleFileUpload, h, hs]

/-- C9 (witness): a calibrated session stays calibrated across a new
URL submit, player creation and file upload. -/
theorem calibration_persists_witness :
    (step calibInit TrackerEvent.playerCreated).isCalibrated = true ∧
    (handleUrlSubmit calibInit "https://youtu.be/abc").attentionData = [] ∧
    (playerCreatedStep calibVideoInit).attentionData = [] ∧
    (handleFileUpload calibInit "video/mp4" "blob:demo" true).isCalibrated
      = calibInit.isCalibrated :=
  ⟨calibration_persists.1 calibInit TrackerEvent.playerCreated (by decide),
   (calibration_persists.2.1 calibInit "https://youtu.be/abc" (by decide)).2.1,
   (calibration_persists.2.2.1 calibVideoInit (by decide)).2.1,
   (calibration_persists.2.2.2 calibInit "video/mp4" "blob:demo" true (by decide)).1⟩

/-- C10: in `EmotionsViewer` the calibrating flag is not latched: any
payload carrying `calibration_percent` (at any value, 100 included)
sets `isCalibrating`, and any payload without a percent carrying
`rel_relaxation` or `rel_attention` clears it again. -/
theorem viewer_calibrating_not_latched :
    (∀ (s : ViewerState) (d : EmotionsData), d.calibration_percent.isSome = true →
      (emotionsViewerHandler s d).isCalibrating = true) ∧
    (∀ (s : ViewerState) (d : EmotionsData), d.calibration_percent = none →
      (d.rel_relaxation.isSome || d.rel_attention.isSome) = true →
      (emotionsViewerHandler s d).isCalibrating = false) := by
  constructor
  · intro s d h
    simp [emotionsViewerHandler, h]
  · intro s d h1 h2
    simp [emotionsViewerHandler, h1, h2]

/-- C10 (witness): a percent-100 payload turns the flag on and a
subsequent reading payload turns it back off. -/
theorem viewer_calibrating_not_latched_witness :
    (emotionsViewerHandler viewerIdle { calibration_percent := some 100 }).isCalibrating
      = true ∧
    (emotionsViewerHandler viewerCalibrating
        { rel_attention := some (7/10) }).isCalibrating = false :=
  ⟨viewer_calibrating_not_latched.1 viewerIdle _ (by decide),
   viewer_calibrating_not_latched.2 viewerCalibrating _ (by decide) (by decide)⟩

/-- C5: for every session history (load A, track, finish with `ENDED`),
submitting a new valid video URL B leaves the series buffer empty, and
it stays empty across any further events until B's playback starts: no
sample collected during A survives the load of B. -/
theorem series_buffer_cleared_on_new_video (pre post : List TrackerEvent)
    (url : String) (hurl : (extractVideoId url).isSome = true)
    (hpost : ∀ e ∈ post,
      e ≠ TrackerEvent.playerStateChange PlayerState.playing ∧
      e ≠ TrackerEvent.videoPlay) :
    (run (pre ++ TrackerEvent.playerStateChange PlayerState.ended ::
      TrackerEvent.urlSubmit url :: post)).attentionData = [] := by
  have hrw : run (pre ++ TrackerEvent.playerStateChange PlayerState.ended ::
      TrackerEvent.urlSubmit url :: post)
      = post.foldl step (step (step (run pre)
          (TrackerEvent.playerStateChange PlayerState.ended))
          (TrackerEvent.urlSubmit url)) := by
    simp [run, List.foldl_append]
  rw [hrw]
  refine not_playing_empty_preserved post _ ?_ ?_ ?_ hpost
  · exact timerInv_step _ _ (timerInv_step _ _ (timerInv_run pre))
  · exact ((handleUrlSubmit_fields _ url).2.2.1).trans rfl
  · cases hx : extractVideoId url with
    | none =>
      rw [hx] at hurl
      simp at hurl
    | some id =>
      show (handleUrlSubmit _ url).attentionData = []
      simp [handleUrlSubmit, hx]

/-- C5 (witness): a full session on A that collects a sample, then
ends, then loads B; the buffer is empty after B is loaded. -/
theorem series_buffer_cleared_witness :
    (run (sessionApre ++ TrackerEvent.playerStateChange PlayerState.ended ::
      TrackerEvent.urlSubmit "https://youtu.be/videoB2" ::
      sessionBpost)).attentionData = [] :=
  series_buffer_cleared_on_new_video sessionApre sessionBpost
    "https://youtu.be/videoB2" (by decide) (by decide)

/-- C6: if playback ends while the session is still calibrating (no
calibration-completing event was received), the session finishes
cleanly: the sampling timer is cancelled (no interval registered, no
timer in the table), the results view is shown, the series buffer is
empty and the error message is untouched. -/
theorem ended_while_calibrating (es : List TrackerEvent)
    (h : ∀ e ∈ es, isCalTriggerEvent e = false) :
    (run (es ++ [TrackerEvent.playerStateChange
        PlayerState.ended])).trackingInterval = none ∧
    (run (es ++ [TrackerEvent.playerStateChange
        PlayerState.ended])).activeTimers = [] ∧
    (run (es ++ [TrackerEvent.playerStateChange
        PlayerState.ended])).showGraph = true ∧
    (run (es ++ [TrackerEvent.playerStateChange
        PlayerState.ended])).attentionData = [] ∧
    (run (es ++ [TrackerEvent.playerStateChange
        PlayerState.ended])).errorMessage = (run es).errorMessage := by
  obtain ⟨hA, hD, hC⟩ := run_no_trigger es h
  obtain ⟨hT1, hT2, hT3⟩ := timerInv_run es
  obtain ⟨g1, g2⟩ := stopAttentionTracking_spec (run es) hT1
  obtain ⟨f1, f2, f3, f4⟩ := stopAttentionTracking_fields (run es)
  rw [run_append_singleton]
  exact ⟨g2, g1, rfl, f3.trans hD, f4⟩

/-- C6 (witness): the uncalibrated playing session of
`calibratingTrace` receives `ENDED`: graph shown, empty buffer. -/
theorem ended_while_calibrating_witness :
    (run (calibratingTrace ++ [TrackerEvent.playerStateChange
        PlayerState.ended])).showGraph = true ∧
    (run (calibratingTrace ++ [TrackerEvent.playerStateChange
        PlayerState.ended])).attentionData = [] := by
  have hno : ∀ e ∈ calibratingTrace, isCalTriggerEvent e = false := by
    intro e he
    fin_cases he <;> norm_num [isCalTriggerEvent, calTrigger]
  exact ⟨(ended_while_calibrating calibratingTrace hno).2.2.1,
    (ended_while_calibrating calibratingTrace hno).2.2.2.1⟩

end FocusFlow
